import Mathlib

/-!
Shallow embedding of `src/crud.py` (InternDB-Curd): a Flask + psycopg2 CRUD
service over a single `students` table.  JSON values that can appear in
request bodies and rows are modelled by `JVal`; a request body is an
association list of key/value pairs (a Python dict); the database table is a
list of rows.  Each HTTP handler becomes a pure function from its inputs and
the current table to a response and the table after the request (commit keeps
the new table, rollback restores the old one).  psycopg2 exceptions are
modelled by `PGError`; `psycopg2.IntegrityError` covers both unique-constraint
and not-null violations (SQLSTATE class 23), which the model mirrors.
-/

namespace InternDB

/-- A JSON value as it occurs in request bodies and table columns:
Python `None`, a string, or an integer. -/
inductive JVal where
  | null : JVal
  | str : String → JVal
  | int : Int → JVal
deriving DecidableEq

/-- A JSON object body (`request.get_json()`): key/value pairs of a Python
dict.  The empty list stands for both an empty dict and a missing body
(both are falsy in `if not data`). -/
abbrev Body := List (String × JVal)

/-- Python `k in data` for a dict. -/
def hasKey (d : Body) (k : String) : Bool := (d.lookup k).isSome

/-- Python `data.get(k)`: the value at `k`, or `None` when absent. -/
def getVal (d : Body) (k : String) : JVal := (d.lookup k).getD JVal.null

/-- A timestamp as stored in the `created_at TIMESTAMP` column. -/
structure Timestamp where
  year : Nat
  month : Nat
  day : Nat
  hour : Nat
  minute : Nat
  second : Nat
deriving DecidableEq

/-- Zero-pad a number to two digits, as in timestamp rendering. -/
def pad2 (n : Nat) : String := if n < 10 then "0" ++ toString n else toString n

/-- Models `datetime.isoformat()` from the Python standard library (external
to the repository): the ISO-8601 rendering `YYYY-MM-DDTHH:MM:SS`. -/
def Timestamp.isoformat (t : Timestamp) : String :=
  toString t.year ++ "-" ++ pad2 t.month ++ "-" ++ pad2 t.day ++ "T" ++
    pad2 t.hour ++ ":" ++ pad2 t.minute ++ ":" ++ pad2 t.second

/-- One row of the `students` table (schema from
`create_table_if_not_exists`): `id SERIAL PRIMARY KEY`,
`name VARCHAR(255) NOT NULL`, `email VARCHAR(255) UNIQUE NOT NULL`,
`age INTEGER`, `course VARCHAR(255)`,
`created_at TIMESTAMP WITH TIME ZONE DEFAULT CURRENT_TIMESTAMP`. -/
structure Student where
  id : Nat
  name : JVal
  email : JVal
  age : JVal
  course : JVal
  created_at : Option Timestamp
deriving DecidableEq

/-- The `students` table. -/
abbrev Table := List Student

/-- A psycopg2 exception raised by `cur.execute`.  `uniqueViolation`
(SQLSTATE 23505) and `notNullViolation` (SQLSTATE 23502) are both subclasses
of `psycopg2.IntegrityError`; `otherError` is any other database failure. -/
inductive PGError where
  | uniqueViolation : PGError
  | notNullViolation : PGError
  | otherError : String → PGError
deriving DecidableEq

/-- Whether the exception is an instance of `psycopg2.IntegrityError`. -/
def PGError.isIntegrityError : PGError → Bool
  | .uniqueViolation => true
  | .notNullViolation => true
  | .otherError _ => false

/-- The id the `SERIAL` sequence hands to the next inserted row (fresh:
larger than every existing id). -/
def nextId (t : Table) : Nat := (t.map Student.id).foldr max 0 + 1

/-- Postgres executing
`INSERT INTO students (name, email, age, course) VALUES (%s,%s,%s,%s) RETURNING id`:
checks the `NOT NULL` constraints on `name` and `email` and the `UNIQUE`
constraint on `email`, then appends the row with a fresh id and the
`created_at` default (`CURRENT_TIMESTAMP`, passed in as `now`).  Returns the
new table and the generated id. -/
def dbInsert (t : Table) (name email age course : JVal) (now : Timestamp) :
    Except PGError (Table × Nat) :=
  if name = JVal.null then .error .notNullViolation
  else if email = JVal.null then .error .notNullViolation
  else if t.any (fun r => r.email = email) then .error .uniqueViolation
  else
    let i := nextId t
    .ok (t ++ [⟨i, name, email, age, course, some now⟩], i)

/-- Response of the `POST /students` handler, by status code. -/
inductive AddResp where
  | badRequest : String → AddResp         -- 400
  | created : Nat → JVal → JVal → String → AddResp  -- 201: id, name, email, message
  | conflict : String → AddResp           -- 409
  | serverError : String → AddResp        -- 500
deriving DecidableEq

/-- `add_student` (POST /students).  `connOk` models whether
`get_db_connection()` succeeded; `fault` models `cur.execute` raising a
non-integrity exception instead of running (`none` = the statement runs).
Returns the response and the table after commit/rollback. -/
def add_student (data : Body) (t : Table) (connOk : Bool)
    (fault : Option String) (now : Timestamp) : AddResp × Table :=
  if data.isEmpty || !hasKey data "name" || !hasKey data "email" then
    (.badRequest "Name and email are required fields.", t)
  else
    let name := getVal data "name"
    let email := getVal data "email"
    let age := getVal data "age"
    let course := getVal data "course"
    if !connOk then (.serverError "Database connection failed", t)
    else
      match fault with
      | some m => (.serverError m, t)
      | none =>
        match dbInsert t name email age course now with
        | .error e =>
          if e.isIntegrityError then
            (.conflict "A student with this email already exists.", t)
          else
            (.serverError "database error", t)
        | .ok (t2, i) =>
          (.created i name email "Student added successfully", t2)

/-- Serialization of the `created_at` column: `dict(row)` keeps `None` as
`null`; a non-null timestamp is rendered with `.isoformat()`. -/
def serializeCreatedAt : Option Timestamp → JVal
  | none => JVal.null
  | some ts => JVal.str ts.isoformat

/-- A row serialized to the field-name-keyed JSON object the GET handlers
return (`dict(row)` with `created_at` passed through `.isoformat()`). -/
def serialize (r : Student) : List (String × JVal) :=
  [("id", JVal.int r.id), ("name", r.name), ("email", r.email),
   ("age", r.age), ("course", r.course),
   ("created_at", serializeCreatedAt r.created_at)]

/-- The table sorted by ascending id: Postgres executing
`SELECT ... FROM students ORDER BY id`. -/
def sortById (t : Table) : Table := t.insertionSort (fun a b => a.id ≤ b.id)

/-- Response of the `GET /students` handler. -/
inductive ListResp where
  | ok : List (List (String × JVal)) → ListResp   -- 200
  | serverError : String → ListResp               -- 500
deriving DecidableEq

/-- `get_all_students` (GET /students). -/
def get_all_students (t : Table) (connOk : Bool) (fault : Option String) :
    ListResp :=
  if !connOk then .serverError "Database connection failed"
  else
    match fault with
    | some m => .serverError m
    | none => .ok ((sortById t).map serialize)

/-- Response of the `GET /students/{id}` handler. -/
inductive GetResp where
  | ok : List (String × JVal) → GetResp   -- 200
  | notFound : String → GetResp           -- 404
  | serverError : String → GetResp        -- 500
deriving DecidableEq

/-- `get_student` (GET /students/<int:student_id>): `fetchone` on
`SELECT ... WHERE id = %s`. -/
def get_student (student_id : Nat) (t : Table) (connOk : Bool)
    (fault : Option String) : GetResp :=
  if !connOk then .serverError "Database connection failed"
  else
    match fault with
    | some m => .serverError m
    | none =>
      match t.find? (fun r => r.id = student_id) with
      | some r => .ok (serialize r)
      | none =>
        .notFound ("Student with ID " ++ toString student_id ++ " not found")

/-- The `query_parts` list built by `update_student`: one
`column = %s` clause per recognized key present in the body, appended in the
fixed source order name, email, age, course. -/
def query_parts (data : Body) : List String :=
  (if hasKey data "name" then ["name = %s"] else []) ++
  (if hasKey data "email" then ["email = %s"] else []) ++
  (if hasKey data "age" then ["age = %s"] else []) ++
  (if hasKey data "course" then ["course = %s"] else [])

/-- The `params` list built by `update_student` before the id is appended:
the body's value for each recognized key present, in the same fixed order. -/
def update_params (data : Body) : List JVal :=
  (if hasKey data "name" then [getVal data "name"] else []) ++
  (if hasKey data "email" then [getVal data "email"] else []) ++
  (if hasKey data "age" then [getVal data "age"] else []) ++
  (if hasKey data "course" then [getVal data "course"] else [])

/-- The SQL text of the update statement:
`sql.SQL("UPDATE students SET {} WHERE id = %s").format(sql.SQL(', ').join(...))`. -/
def update_query (data : Body) : String :=
  "UPDATE students SET " ++ String.intercalate ", " (query_parts data) ++
    " WHERE id = %s"

/-- The full parameter list passed to `cur.execute`: the field values
followed by the id (`params.append(student_id)`). -/
def full_params (data : Body) (student_id : Nat) : List JVal :=
  update_params data ++ [JVal.int student_id]

/-- The column/value assignments the generated statement performs: the
clause list and parameter list read side by side. -/
def assignments (data : Body) : List (String × JVal) :=
  (if hasKey data "name" then [("name", getVal data "name")] else []) ++
  (if hasKey data "email" then [("email", getVal data "email")] else []) ++
  (if hasKey data "age" then [("age", getVal data "age")] else []) ++
  (if hasKey data "course" then [("course", getVal data "course")] else [])

/-- Postgres applying one `column = value` assignment to a row. -/
def setCol (r : Student) (c : String) (v : JVal) : Student :=
  if c = "name" then { r with name := v }
  else if c = "email" then { r with email := v }
  else if c = "age" then { r with age := v }
  else if c = "course" then { r with course := v }
  else r

/-- Postgres applying a `SET` list to a row, left to right. -/
def applyAssigns (asgn : List (String × JVal)) (r : Student) : Student :=
  asgn.foldl (fun r p => setCol r p.1 p.2) r

/-- Postgres executing `UPDATE students SET ... WHERE id = %s`: every row
whose id matches is rewritten by the assignments; the `NOT NULL` constraints
on `name` and `email` are checked on the rewritten rows, and the `UNIQUE`
constraint on `email` against the untouched rows.  Returns the new table and
the row count (`cur.rowcount`). -/
def dbUpdate (t : Table) (asgn : List (String × JVal)) (student_id : Nat) :
    Except PGError (Table × Nat) :=
  let touched := (t.filter (fun r => r.id = student_id)).map (applyAssigns asgn)
  if touched.any (fun r => r.name = JVal.null || r.email = JVal.null) then
    .error .notNullViolation
  else if touched.any
      (fun r => t.any (fun s => s.id ≠ student_id && s.email = r.email)) then
    .error .uniqueViolation
  else
    .ok (t.map (fun r => if r.id = student_id then applyAssigns asgn r else r),
      touched.length)

/-- Response of the `PUT /students/{id}` handler. -/
inductive UpdResp where
  | badRequest : String → UpdResp    -- 400
  | ok : String → UpdResp            -- 200
  | notFound : String → UpdResp      -- 404
  | conflict : String → UpdResp      -- 409
  | serverError : String → UpdResp   -- 500
deriving DecidableEq

/-- `update_student` (PUT /students/<int:student_id>).  Returns the response
and the table after commit/rollback. -/
def update_student (student_id : Nat) (data : Body) (t : Table)
    (connOk : Bool) (fault : Option String) : UpdResp × Table :=
  if data.isEmpty then (.badRequest "No data provided for update.", t)
  else if !connOk then (.serverError "Database connection failed", t)
  else if (query_parts data).isEmpty then
    (.badRequest "No valid fields to update.", t)
  else
    match fault with
    | some m => (.serverError m, t)
    | none =>
      match dbUpdate t (assignments data) student_id with
      | .error e =>
        if e.isIntegrityError then
          (.conflict "A student with this email already exists.", t)
        else
          (.serverError "database error", t)
      | .ok (t2, rowcount) =>
        if rowcount = 0 then
          (.notFound ("Student with ID " ++ toString student_id ++
            " not found."), t)
        else
          (.ok ("Student with ID " ++ toString student_id ++
            " updated successfully."), t2)

/-- Response of the `DELETE /students/{id}` handler. -/
inductive DelResp where
  | ok : String → DelResp            -- 200
  | notFound : String → DelResp      -- 404
  | serverError : String → DelResp   -- 500
deriving DecidableEq

/-- `delete_student` (DELETE /students/<int:student_id>): executes
`DELETE FROM students WHERE id = %s` and checks `cur.rowcount`. -/
def delete_student (student_id : Nat) (t : Table) (connOk : Bool)
    (fault : Option String) : DelResp × Table :=
  if !connOk then (.serverError "Database connection failed", t)
  else
    match fault with
    | some m => (.serverError m, t)
    | none =>
      let rowcount := (t.filter (fun r => r.id = student_id)).length
      if rowcount = 0 then
        (.notFound ("Student with ID " ++ toString student_id ++
          " not found."), t)
      else
        (.ok ("Student with ID " ++ toString student_id ++
          " deleted successfully."), t.filter (fun r => r.id ≠ student_id))

/-- The four body keys `update_student` recognizes, in the order the source
tests them. -/
def recognizedFields : List String := ["name", "email", "age", "course"]

/-- Sample timestamp used for concrete instances. -/
def sampleTs : Timestamp := ⟨2024, 1, 2, 3, 4, 5⟩

/-- A sample row used for concrete instances. -/
def aliceRow : Student :=
  ⟨1, JVal.str "Alice", JVal.str "alice@example.com", JVal.null, JVal.null,
    some sampleTs⟩

instance : IsTotal Student (fun a b => a.id ≤ b.id) :=
  ⟨fun a b => Nat.le_total a.id b.id⟩

instance : IsTrans Student (fun a b => a.id ≤ b.id) :=
  ⟨fun _ _ _ h h2 => Nat.le_trans h h2⟩

lemma applyAssigns_assignments (data : Body) (r : Student) :
    applyAssigns (assignments data) r =
      { r with
        name := if hasKey data "name" then getVal data "name" else r.name,
        email := if hasKey data "email" then getVal data "email" else r.email,
        age := if hasKey data "age" then getVal data "age" else r.age,
        course :=
          if hasKey data "course" then getVal data "course" else r.course } := by
  cases h1 : hasKey data "name" <;> cases h2 : hasKey data "email" <;>
    cases h3 : hasKey data "age" <;> cases h4 : hasKey data "course" <;>
      simp [assignments, h1, h2, h3, h4, applyAssigns, setCol]

lemma query_parts_eq_filter (data : Body) :
    query_parts data =
      (recognizedFields.filter (fun c => hasKey data c)).map
        (fun c => c ++ " = %s") := by
  cases h1 : hasKey data "name" <;> cases h2 : hasKey data "email" <;>
    cases h3 : hasKey data "age" <;> cases h4 : hasKey data "course" <;>
      simp [query_parts, recognizedFields, h1, h2, h3, h4]

lemma update_params_eq_filter (data : Body) :
    update_params data =
      (recognizedFields.filter (fun c => hasKey data c)).map
        (fun c => getVal data c) := by
  cases h1 : hasKey data "name" <;> cases h2 : hasKey data "email" <;>
    cases h3 : hasKey data "age" <;> cases h4 : hasKey data "course" <;>
      simp [update_params, recognizedFields, h1, h2, h3, h4]

/-- C6: `GET /students` with a working connection returns 200 with exactly
the rows of the table ordered by ascending id, each serialized to a
field-name-keyed object whose `created_at` is rendered through `isoformat`;
an empty table yields 200 with an empty list. -/
theorem C6_get_all_students (t : Table) :
    get_all_students t true none = ListResp.ok ((sortById t).map serialize) ∧
    (sortById t).Perm t ∧
    List.Sorted (fun a b => a.id ≤ b.id) (sortById t) ∧
    (∀ r : Student, (serialize r).lookup "created_at"
        = some (serializeCreatedAt r.created_at)) ∧
    get_all_students [] true none = ListResp.ok [] :=
  ⟨rfl, List.perm_insertionSort _ t,
    List.sorted_insertionSort (fun a b => a.id ≤ b.id) t, fun _ => rfl, rfl⟩

/-- C7: a PUT with an empty body yields 400 "No data provided for update."
and a PUT whose non-empty body contains none of the four recognized fields
yields 400 "No valid fields to update."; in both cases the table is
unchanged. -/
theorem C7_update_bad_request (student_id : Nat) (t : Table) (data : Body) :
    (∀ connOk fault, update_student student_id [] t connOk fault
        = (UpdResp.badRequest "No data provided for update.", t)) ∧
    (data ≠ [] → (∀ c ∈ recognizedFields, hasKey data c = false) →
      ∀ fault, update_student student_id data t true fault
        = (UpdResp.badRequest "No valid fields to update.", t)) := by
  constructor
  · intro connOk fault
    rfl
  · intro hne hk fault
    have h1 : hasKey data "name" = false := hk "name" (by simp [recognizedFields])
    have h2 : hasKey data "email" = false := hk "email" (by simp [recognizedFields])
    have h3 : hasKey data "age" = false := hk "age" (by simp [recognizedFields])
    have h4 : hasKey data "course" = false := hk "course" (by simp [recognizedFields])
    cases data with
    | nil => exact absurd rfl hne
    | cons p l => simp [update_student, query_parts, h1, h2, h3, h4]

/-- C7 witness at a concrete input. -/
theorem C7_update_bad_request_witness :
    update_student 1 [] [aliceRow] true none
      = (UpdResp.badRequest "No data provided for update.", [aliceRow]) ∧
    update_student 1 [("foo", JVal.int 3)] [aliceRow] true none
      = (UpdResp.badRequest "No valid fields to update.", [aliceRow]) :=
  ⟨(C7_update_bad_request 1 [aliceRow] [("foo", JVal.int 3)]).1 true none,
   (C7_update_bad_request 1 [aliceRow] [("foo", JVal.int 3)]).2 (by decide)
     (by decide) none⟩

/-- C2: the claim says 409 is returned only for email-uniqueness violations
and every other database failure yields 500, but the handler's
`except psycopg2.IntegrityError` also catches NOT NULL violations: posting
`{"name": null, "email": "alice@example.com"}` against an empty table fails
with a NOT NULL violation on `name` (no duplicate email can exist), yet the
handler answers 409 "A student with this email already exists." instead of
500. -/
theorem C2_integrity_catch_all :
    dbInsert [] JVal.null (JVal.str "alice@example.com") JVal.null JVal.null
        sampleTs = .error .notNullViolation ∧
    PGError.notNullViolation ≠ PGError.uniqueViolation ∧
    add_student [("name", JVal.null), ("email", JVal.str "alice@example.com")]
        [] true none sampleTs
      = (.conflict "A student with this email already exists.", []) := by
  exact ⟨by rfl, by decide, by decide⟩

/-- C3 counterexample: the claim says a key present with a null value makes
the column be overwritten with null for all four recognized fields, but
`name` is `NOT NULL`: PUT `{"name": null}` on an existing row makes the
statement fail, the handler answers 409 and the row keeps its old non-null
name. -/
theorem C3_null_name_counterexample :
    update_student 1 [("name", JVal.null)] [aliceRow] true none
      = (.conflict "A student with this email already exists.", [aliceRow]) ∧
    aliceRow.name = JVal.str "Alice" := by decide

/-- C5 counterexample: the claim says no operation can store a row whose
name is empty, but the schema only enforces `NOT NULL`: posting
`{"name": "", "email": "alice@example.com"}` succeeds with 201 and stores a
row whose name is the empty string. -/
theorem C5_empty_name_counterexample :
    add_student
        [("name", JVal.str ""), ("email", JVal.str "alice@example.com")]
        [] true none sampleTs
      = (.created 1 (JVal.str "") (JVal.str "alice@example.com")
          "Student added successfully",
         [⟨1, JVal.str "", JVal.str "alice@example.com", JVal.null, JVal.null,
           some sampleTs⟩]) := by decide

lemma dbInsert_ok (t : Table) (name email age course : JVal) (now : Timestamp)
    (t2 : Table) (i : Nat)
    (h : dbInsert t name email age course now = .ok (t2, i)) :
    name ≠ JVal.null ∧ email ≠ JVal.null ∧
      t2 = t ++ [⟨i, name, email, age, course, some now⟩] := by
  unfold dbInsert at h
  split_ifs at h with h1 h2 h3
  simp only [Except.ok.injEq, Prod.mk.injEq] at h
  exact ⟨h1, h2, by rw [← h.1, ← h.2]⟩

lemma dbUpdate_ok (t : Table) (asgn : List (String × JVal)) (student_id : Nat)
    (t2 : Table) (rc : Nat)
    (h : dbUpdate t asgn student_id = .ok (t2, rc)) :
    t2 = t.map
        (fun r => if r.id = student_id then applyAssigns asgn r else r) ∧
    rc = (t.filter (fun r => r.id = student_id)).length ∧
    ((t.filter (fun r => r.id = student_id)).map (applyAssigns asgn)).any
        (fun r => r.name = JVal.null || r.email = JVal.null) = false := by
  simp only [dbUpdate] at h
  split_ifs at h with h1 h2
  simp only [Except.ok.injEq, Prod.mk.injEq] at h
  refine ⟨h.1.symm, by rw [← h.2]; simp, by simpa using h1⟩

/-- C4: when no row has the requested id, both PUT (with a body containing
at least one recognized field) and DELETE affect zero rows, answer 404
"Student with ID ... not found." and leave the table unchanged (the
transaction is rolled back). -/
theorem C4_zero_rows_not_found (student_id : Nat) (t : Table)
    (hnone : ∀ r ∈ t, r.id ≠ student_id) :
    (∀ data, data ≠ [] → query_parts data ≠ [] →
      update_student student_id data t true none
        = (UpdResp.notFound
            ("Student with ID " ++ toString student_id ++ " not found."), t)) ∧
    delete_student student_id t true none
      = (DelResp.notFound
          ("Student with ID " ++ toString student_id ++ " not found."), t) := by
  have hfil : t.filter (fun r => r.id = student_id) = [] := by
    rw [List.filter_eq_nil_iff]
    intro r hr
    simp [hnone r hr]
  constructor
  · intro data hdata hqp
    have hde : data.isEmpty = false := by
      cases data
      · exact absurd rfl hdata
      · rfl
    have hqe : (query_parts data).isEmpty = false := by
      cases hq : query_parts data
      · exact absurd hq hqp
      · rfl
    simp [update_student, hde, hqe, dbUpdate, hfil]
  · simp [delete_student, hfil]

/-- C4 witness at a concrete input. -/
theorem C4_zero_rows_not_found_witness :
    update_student 2 [("age", JVal.int 22)] [aliceRow] true none
      = (UpdResp.notFound "Student with ID 2 not found.", [aliceRow]) ∧
    delete_student 2 [aliceRow] true none
      = (DelResp.notFound "Student with ID 2 not found.", [aliceRow]) := by
  have h := C4_zero_rows_not_found 2 [aliceRow] (by decide)
  exact ⟨h.1 [("age", JVal.int 22)] (by decide) (by decide), h.2⟩

/-- C10: the update statement construction is deterministic and canonically
ordered: two bodies that agree on presence and value of the four recognized
fields yield the same SQL text, the same parameter list and the same
assignments, whatever the order of their keys; the clauses follow the fixed
source order name, email, age, course. -/
theorem C10_canonical_query (d1 d2 : Body) (student_id : Nat)
    (h : ∀ c ∈ recognizedFields,
      hasKey d1 c = hasKey d2 c ∧ getVal d1 c = getVal d2 c) :
    update_query d1 = update_query d2 ∧
    full_params d1 student_id = full_params d2 student_id ∧
    assignments d1 = assignments d2 ∧
    query_parts d1
      = (recognizedFields.filter (fun c => hasKey d1 c)).map
          (fun c => c ++ " = %s") := by
  have hn := h "name" (by simp [recognizedFields])
  have he := h "email" (by simp [recognizedFields])
  have ha := h "age" (by simp [recognizedFields])
  have hc := h "course" (by simp [recognizedFields])
  refine ⟨?_, ?_, ?_, query_parts_eq_filter d1⟩
  · simp [update_query, query_parts, hn.1, he.1, ha.1, hc.1]
  · simp [full_params, update_params, hn.1, he.1, ha.1, hc.1, hn.2, he.2,
      ha.2, hc.2]
  · simp [assignments, hn.1, he.1, ha.1, hc.1, hn.2, he.2, ha.2, hc.2]

/-- C10 witness: two bodies with the same fields in different key order. -/
theorem C10_canonical_query_witness :
    update_query [("age", JVal.int 22), ("name", JVal.str "B")]
      = update_query [("name", JVal.str "B"), ("age", JVal.int 22)] ∧
    full_params [("age", JVal.int 22), ("name", JVal.str "B")] 7
      = full_params [("name", JVal.str "B"), ("age", JVal.int 22)] 7 := by
  have h := C10_canonical_query [("age", JVal.int 22), ("name", JVal.str "B")]
    [("name", JVal.str "B"), ("age", JVal.int 22)] 7 (by decide)
  exact ⟨h.1, h.2.1⟩

/-- C1: a successful PUT changes only the supplied recognized fields of the
matched row, leaves every unsupplied field of that row and every other row
unchanged; the generated statement has exactly one `column = %s` clause per
recognized field present, joined by commas in the fixed source order, and
the parameter list matches the clauses in the same order with the id as the
final parameter. -/
theorem C1_update_touches_only_supplied (student_id : Nat) (data : Body)
    (t t2 : Table) (msg : String)
    (h : update_student student_id data t true none = (UpdResp.ok msg, t2)) :
    query_parts data
      = (recognizedFields.filter (fun c => hasKey data c)).map
          (fun c => c ++ " = %s") ∧
    full_params data student_id
      = (recognizedFields.filter (fun c => hasKey data c)).map
          (fun c => getVal data c) ++ [JVal.int student_id] ∧
    update_query data
      = "UPDATE students SET " ++ String.intercalate ", " (query_parts data)
          ++ " WHERE id = %s" ∧
    (full_params data student_id).length = (query_parts data).length + 1 ∧
    query_parts data ≠ [] ∧
    t2 = t.map (fun r =>
      if r.id = student_id then
        { r with
          name := if hasKey data "name" then getVal data "name" else r.name,
          email := if hasKey data "email" then getVal data "email" else r.email,
          age := if hasKey data "age" then getVal data "age" else r.age,
          course :=
            if hasKey data "course" then getVal data "course" else r.course }
      else r) := by
  refine ⟨query_parts_eq_filter data, ?_, rfl, ?_, ?_, ?_⟩
  · rw [full_params, update_params_eq_filter]
  · simp [full_params, update_params_eq_filter, query_parts_eq_filter]
  · simp only [update_student] at h
    split at h
    · simp at h
    · rw [if_neg (show ¬(!true) = true by simp)] at h
      split at h
      · simp at h
      · next hqe =>
        intro hnil
        exact hqe (by simp [hnil])
  · simp only [update_student] at h
    split at h
    · simp at h
    · rw [if_neg (show ¬(!true) = true by simp)] at h
      split at h
      · simp at h
      · split at h
        next e heq =>
          split at h <;> simp at h
        next tt rc heq =>
          obtain ⟨ht2, _, _⟩ :=
            dbUpdate_ok t (assignments data) student_id tt rc heq
          split at h
          · simp at h
          · have htt : t2 = tt := by
              simpa using congrArg Prod.snd h.symm
            rw [htt, ht2]
            apply List.map_congr_left
            intro r _
            by_cases hid : r.id = student_id
            · rw [if_pos hid, if_pos hid, applyAssigns_assignments]
            · rw [if_neg hid, if_neg hid]

/-- C1 witness at a concrete successful update. -/
theorem C1_update_touches_only_supplied_witness :
    query_parts [("age", JVal.int 22)] = ["age = %s"] ∧
    full_params [("age", JVal.int 22)] 1 = [JVal.int 22, JVal.int 1] := by
  have h := C1_update_touches_only_supplied 1 [("age", JVal.int 22)]
    [aliceRow]
    [⟨1, JVal.str "Alice", JVal.str "alice@example.com", JVal.int 22,
      JVal.null, some sampleTs⟩]
    "Student with ID 1 updated successfully." (by decide)
  exact ⟨h.1.trans (by decide), h.2.1.trans (by decide)⟩

/-- C3 (amended): a recognized key present in the body makes the generated
statement overwrite that column with the supplied value, null included, and
an absent key leaves the column unchanged — for all four fields at the
statement level; the overwrite with null goes through for the nullable
columns `age` and `course`, while for `name` and `email` the NOT NULL
constraint rejects the statement, the handler answers 409 and the row is
left unchanged. -/
theorem C3_present_null_semantics (data : Body) (r : Student) :
    ((applyAssigns (assignments data) r).name
        = if hasKey data "name" then getVal data "name" else r.name) ∧
    ((applyAssigns (assignments data) r).email
        = if hasKey data "email" then getVal data "email" else r.email) ∧
    ((applyAssigns (assignments data) r).age
        = if hasKey data "age" then getVal data "age" else r.age) ∧
    ((applyAssigns (assignments data) r).course
        = if hasKey data "course" then getVal data "course" else r.course) ∧
    (∀ (t : Table) (student_id : Nat),
      data ≠ [] →
      (hasKey data "name" = true ∧ getVal data "name" = JVal.null ∨
        hasKey data "email" = true ∧ getVal data "email" = JVal.null) →
      (∃ rr ∈ t, rr.id = student_id) →
      update_student student_id data t true none
        = (UpdResp.conflict "A student with this email already exists.", t)) := by
  refine ⟨by rw [applyAssigns_assignments], by rw [applyAssigns_assignments],
    by rw [applyAssigns_assignments], by rw [applyAssigns_assignments], ?_⟩
  rintro t student_id hne hnull ⟨rr, hmem, hid⟩
  have hde : data.isEmpty = false := by
    cases data
    · exact absurd rfl hne
    · rfl
  have hqe : (query_parts data).isEmpty = false := by
    rcases hnull with ⟨hk, _⟩ | ⟨hk, _⟩ <;> simp [query_parts, hk]
  have htouched :
      ((t.filter (fun r2 => r2.id = student_id)).map
          (applyAssigns (assignments data))).any
        (fun r2 => r2.name = JVal.null || r2.email = JVal.null) = true := by
    rw [List.any_eq_true]
    refine ⟨applyAssigns (assignments data) rr,
      List.mem_map_of_mem _ (List.mem_filter.mpr ⟨hmem, by simp [hid]⟩), ?_⟩
    rcases hnull with ⟨hk, hv⟩ | ⟨hk, hv⟩ <;>
      simp [applyAssigns_assignments, hk, hv]
  have hdb : dbUpdate t (assignments data) student_id
      = .error .notNullViolation := by
    simp only [dbUpdate]
    rw [if_pos htouched]
  simp [update_student, hde, hqe, hdb, PGError.isIntegrityError]

/-- C3 witness: a null `age` is stored as null; a null `name` is rejected
with 409 and the row kept. -/
theorem C3_present_null_semantics_witness :
    (applyAssigns (assignments [("age", JVal.null)]) aliceRow).age
      = JVal.null ∧
    update_student 1 [("name", JVal.null)] [aliceRow] true none
      = (UpdResp.conflict "A student with this email already exists.",
         [aliceRow]) := by
  refine ⟨(C3_present_null_semantics [("age", JVal.null)] aliceRow).2.2.1.trans
    (by decide), ?_⟩
  exact (C3_present_null_semantics [("name", JVal.null)] aliceRow).2.2.2.2
    [aliceRow] 1 (by decide) (Or.inl (by decide)) ⟨aliceRow, by decide, by decide⟩

/-- C5 (amended): no operation can store a row whose name is null (the
`NOT NULL` constraint makes every violating statement fail and roll back),
so tables whose rows all have non-null names stay that way across create,
update and delete requests; emptiness of the name is not enforced. -/
theorem C5_name_not_null_invariant (t : Table)
    (hnn : ∀ r ∈ t, r.name ≠ JVal.null) :
    (∀ data connOk fault now r,
      r ∈ (add_student data t connOk fault now).2 → r.name ≠ JVal.null) ∧
    (∀ student_id data connOk fault r,
      r ∈ (update_student student_id data t connOk fault).2 →
        r.name ≠ JVal.null) ∧
    (∀ student_id connOk fault r,
      r ∈ (delete_student student_id t connOk fault).2 →
        r.name ≠ JVal.null) := by
  refine ⟨?_, ?_, ?_⟩
  · intro data connOk fault now r hr
    simp only [add_student] at hr
    split at hr
    · exact hnn r hr
    · split at hr
      · exact hnn r hr
      · split at hr
        next m heq => exact hnn r hr
        next heq =>
          split at hr
          next e heq2 =>
            split at hr <;> exact hnn r hr
          next t2 i heq2 =>
            obtain ⟨hname, _, ht2⟩ := dbInsert_ok t _ _ _ _ now t2 i heq2
            dsimp only at hr
            rw [ht2] at hr
            rcases List.mem_append.mp hr with hmem | hmem
            · exact hnn r hmem
            · rw [List.mem_singleton.mp hmem]
              exact hname
  · intro student_id data connOk fault r hr
    simp only [update_student] at hr
    split at hr
    · exact hnn r hr
    · split at hr
      · exact hnn r hr
      · split at hr
        · exact hnn r hr
        · split at hr
          next m heq => exact hnn r hr
          next heq =>
            split at hr
            next e heq2 =>
              split at hr <;> exact hnn r hr
            next tt rc heq2 =>
              obtain ⟨ht2, _, hany⟩ :=
                dbUpdate_ok t (assignments data) student_id tt rc heq2
              split at hr
              · exact hnn r hr
              · dsimp only at hr
                rw [ht2] at hr
                rcases List.mem_map.mp hr with ⟨r0, hr0, hre⟩
                by_cases hid : r0.id = student_id
                · rw [if_pos hid] at hre
                  have hmem2 : applyAssigns (assignments data) r0 ∈
                      (t.filter (fun x => x.id = student_id)).map
                        (applyAssigns (assignments data)) :=
                    List.mem_map_of_mem _
                      (List.mem_filter.mpr ⟨hr0, by simp [hid]⟩)
                  have hno := List.any_eq_false.mp hany _ hmem2
                  rw [← hre]
                  intro hcontra
                  exact hno (by simp [hcontra])
                · rw [if_neg hid] at hre
                  rw [← hre]
                  exact hnn r0 hr0
  · intro student_id connOk fault r hr
    simp only [delete_student] at hr
    split at hr
    · exact hnn r hr
    · split at hr
      next m heq => exact hnn r hr
      next heq =>
        split at hr
        · exact hnn r hr
        · exact hnn r (List.mem_of_mem_filter hr)

/-- C5 (amended) witness: the row a concrete successful POST stores has a
non-null name. -/
theorem C5_name_not_null_invariant_witness :
    (⟨2, JVal.str "Bob", JVal.str "b@x.com", JVal.null, JVal.null,
      some sampleTs⟩ : Student).name ≠ JVal.null :=
  (C5_name_not_null_invariant [aliceRow] (by decide)).1
    [("name", JVal.str "Bob"), ("email", JVal.str "b@x.com")] true none
    sampleTs _ (by decide)

/-- C8: GET by id returns 200 with the serialized row when a row with that
id exists (ids are unique: the column is the primary key) and 404 with a
message referencing the requested id when none does. -/
theorem C8_get_student_by_id (student_id : Nat) (t : Table) :
    (∀ r, (t.map Student.id).Nodup → r ∈ t → r.id = student_id →
      get_student student_id t true none = GetResp.ok (serialize r)) ∧
    ((∀ r ∈ t, r.id ≠ student_id) →
      get_student student_id t true none
        = GetResp.notFound
            ("Student with ID " ++ toString student_id ++ " not found") ∧
      ∃ pre post, "Student with ID " ++ toString student_id ++ " not found"
          = pre ++ toString student_id ++ post) := by
  constructor
  · intro r hnd hmem hid
    have hsome : (t.find? (fun x => x.id = student_id)).isSome := by
      rw [List.find?_isSome]
      exact ⟨r, hmem, by simp [hid]⟩
    obtain ⟨r2, hfind⟩ := Option.isSome_iff_exists.mp hsome
    have hmem2 := List.mem_of_find?_eq_some hfind
    have hid2 : r2.id = student_id := by simpa using List.find?_some hfind
    have hr2 : r2 = r :=
      List.inj_on_of_nodup_map hnd hmem2 hmem (by rw [hid2, hid])
    simp [get_student, hfind, hr2]
  · intro hnone
    have hfind : t.find? (fun x => x.id = student_id) = none := by
      rw [List.find?_eq_none]
      intro x hx
      simp [hnone x hx]
    exact ⟨by simp [get_student, hfind],
      "Student with ID ", " not found", rfl⟩

/-- C8 witness at a concrete table. -/
theorem C8_get_student_by_id_witness :
    get_student 1 [aliceRow] true none = GetResp.ok (serialize aliceRow) ∧
    get_student 2 [aliceRow] true none
      = GetResp.notFound "Student with ID 2 not found" := by
  refine ⟨(C8_get_student_by_id 1 [aliceRow]).1 aliceRow (by decide)
    (by decide) (by decide), ?_⟩
  exact ((C8_get_student_by_id 2 [aliceRow]).2 (by decide)).1.trans (by decide)

/-- C9: POST with a body missing the `name` key or the `email` key (or with
no body) yields 400 and leaves the table unchanged; when both keys are
present the handler never answers with the validation 400 and proceeds to
the insert. -/
theorem C9_add_validation (data : Body) (t : Table) :
    ((data = [] ∨ hasKey data "name" = false ∨ hasKey data "email" = false) →
      ∀ connOk fault now,
        add_student data t connOk fault now
          = (AddResp.badRequest "Name and email are required fields.", t)) ∧
    (hasKey data "name" = true → hasKey data "email" = true →
      ∀ connOk fault now m,
        (add_student data t connOk fault now).1 ≠ AddResp.badRequest m) := by
  constructor
  · rintro (h | h | h) connOk fault now
    · subst h
      rfl
    · simp [add_student, h]
    · simp [add_student, h]
  · intro hn he connOk fault now m
    have hde : data.isEmpty = false := by
      cases data
      · simp [hasKey] at hn
      · rfl
    simp only [add_student, hde, hn, he, Bool.not_true, Bool.or_false,
      Bool.false_or, Bool.or_self, Bool.false_eq_true, if_false]
    split
    · simp
    · split
      · simp
      · split
        · split <;> simp
        · simp

/-- C9 witness at concrete inputs. -/
theorem C9_add_validation_witness :
    add_student [("name", JVal.str "Bob")] [aliceRow] true none sampleTs
      = (AddResp.badRequest "Name and email are required fields.",
         [aliceRow]) ∧
    (add_student [("name", JVal.str "Bob"), ("email", JVal.str "b@x.com")]
        [aliceRow] true none sampleTs).1
      ≠ AddResp.badRequest "Name and email are required fields." := by
  constructor
  · exact (C9_add_validation [("name", JVal.str "Bob")] [aliceRow]).1
      (Or.inr (Or.inr (by decide))) true none sampleTs
  · exact (C9_add_validation
      [("name", JVal.str "Bob"), ("email", JVal.str "b@x.com")] [aliceRow]).2
      (by decide) (by decide) true none sampleTs _

end InternDB
